import Mathlib

/-!
# Verification of the job-intelligence pipeline core

Shallow embedding of the repository's core pipeline:

* `analyzers/job_matcher.py` — the relevance scorer (`JobMatcher`);
* `scrapers/ats_scraper.py` — job normalization (`normalize_job`, `extract_experience`);
* `main.py` — the aggregator's STEP 2 dedup/filter loop and `safe_scrape`;
* `database/db_manager.py` — the persistence gateway (`insert_job` against
  the `jobs` table with its `UNIQUE(title, company, location)` constraint);
* `config/config.py` — `YOUR_PROFILE` and `MATCHING_CONFIG`.

Python strings are modelled as Lean `String`s (ASCII-faithful: the repository
only manipulates ASCII text plus a few fixed literal characters), Python
floats as exact rationals `ℚ`, and the SQLite `jobs` table as an explicit
list of rows threaded through `insert_job`.
-/

namespace JobIntel

/-! ## Python string primitives -/

/-- Python `needle in haystack` on character lists: `needle` occurs as a
contiguous sublist of `haystack`.  The empty needle matches everywhere,
as in Python. -/
def subListB : List Char → List Char → Bool
  | n, [] => n.isEmpty
  | n, c :: t => n.isPrefixOf (c :: t) || subListB n t

/-- Python `needle in haystack` for strings. -/
def pyIn (needle haystack : String) : Bool :=
  subListB needle.data haystack.data

/-- Python `s.lower()` (ASCII case folding, which is all the repository uses). -/
def pyLower (s : String) : String :=
  ⟨s.data.map Char.toLower⟩

/-- Python `s[:n]` on a string. -/
def pyTake (s : String) (n : Nat) : String :=
  ⟨s.data.take n⟩

/-- One step of whitespace splitting, used by `pySplit` via `foldr`. -/
def splitWsStep (c : Char) (acc : List (List Char)) : List (List Char) :=
  if c.isWhitespace then [] :: acc
  else match acc with
    | [] => [[c]]
    | t :: ts => (c :: t) :: ts

/-- Python `s.split()` with no argument: split on whitespace runs,
dropping empty tokens. -/
def pySplit (s : String) : List String :=
  ((s.data.foldr splitWsStep []).filter (fun t => !t.isEmpty)).map (⟨·⟩)

/-- Python `int(...)` on a nonempty decimal digit string (as produced by a
`\d+` capture group). -/
def natOfDigits (ds : List Char) : Nat :=
  ds.foldl (fun n c => 10 * n + (c.toNat - 48)) 0

/-- Python truthiness fallback `a or b` for an optional string (`None` and
`""` are falsy). -/
def pyOrStr (a : Option String) (b : String) : String :=
  match a with
  | none => b
  | some s => if s = "" then b else s

/-! ## Python `round(x, 2)`

CPython `round` uses banker's rounding (round half to even).  The model works
over exact rationals. -/

/-- Round a rational to the nearest integer, halves to the even neighbour. -/
def roundHalfEven (x : ℚ) : ℤ :=
  let f := ⌊x⌋
  let r := x - (f : ℚ)
  if r < 1/2 then f
  else if 1/2 < r then f + 1
  else if Even f then f else f + 1

/-- Python `round(x, 2)`. -/
def pyRound2 (x : ℚ) : ℚ :=
  (roundHalfEven (x * 100) : ℚ) / 100

/-! ## Data model

`Job` mirrors the plain string-keyed dicts that flow through the pipeline;
`job.get(k, '')` on an absent key is modelled by the `""` field defaults. -/

structure Job where
  title : String := ""
  company : String := ""
  company_type : String := ""
  location : String := ""
  experience_required : String := ""
  skills_required : String := ""
  salary : String := ""
  job_description : String := ""
  application_link : String := ""
  source_platform : String := ""
  posting_date : String := ""
  relevance_score : ℚ := 0
  deriving DecidableEq, Repr

/-- The candidate profile fields the matcher reads (`config.YOUR_PROFILE`). -/
structure Profile where
  location : String
  max_experience_required : Nat
  skills : List String
  preferred_locations : List String
  deriving DecidableEq, Repr

/-- Embeds `config.YOUR_PROFILE` (the fields the scorer consumes). -/
def YOUR_PROFILE : Profile where
  location := "Hyderabad"
  max_experience_required := 2
  skills := ["SQL", "Python", "Power BI", "Tableau", "Excel",
             "pandas", "numpy", "Data Analysis", "ETL",
             "MySQL", "PostgreSQL", "Data Visualization",
             "Statistical Analysis", "Azure", "Git", "R"]
  preferred_locations := ["Hyderabad", "Bangalore", "Remote", "Work from Home"]

/-- The scoring weights and thresholds of `config.MATCHING_CONFIG`. -/
structure MatchingConfig where
  min_relevance_score : ℚ
  high_priority_score : ℚ
  keyword_weight : ℚ
  experience_weight : ℚ
  location_weight : ℚ
  company_type_weight : ℚ
  salary_weight : ℚ
  deriving DecidableEq, Repr

/-- Embeds `config.MATCHING_CONFIG`. -/
def MATCHING_CONFIG : MatchingConfig where
  min_relevance_score := 35
  high_priority_score := 65
  keyword_weight := 0.25
  experience_weight := 0.35
  location_weight := 0.20
  company_type_weight := 0.10
  salary_weight := 0.10

/-! ## Experience-text number parsing (`re.findall` in the scorer)

`calculate_experience_match` runs two regexes over the experience text:
`(\d+)\s*(?:to|-|–)\s*(\d+)\s*(?:year|yr)` and `(\d+)\s*(?:year|yr)`.
The scanners below implement `re.findall` for exactly these patterns:
left-to-right scan, at each position a greedy match attempt, and on success
the scan resumes after the matched span.  (Greedy matching is exact here:
no character class of either pattern overlaps the class that follows it,
so the regex engine never needs to backtrack.) -/

/-- The `(?:to|-|–)` separator alternation. -/
def matchSep : List Char → Option (List Char)
  | 't' :: 'o' :: rest => some rest
  | '-' :: rest => some rest
  | '–' :: rest => some rest
  | _ => none

/-- The `(?:year|yr)` unit alternation. -/
def matchYearTok : List Char → Option (List Char)
  | 'y' :: 'e' :: 'a' :: 'r' :: rest => some rest
  | 'y' :: 'r' :: rest => some rest
  | _ => none

/-- Attempt `(\d+)\s*(?:to|-|–)\s*(\d+)\s*(?:year|yr)` at the head of `l`;
on success return both captured numbers and the remainder after the match. -/
def matchYearRangeAt (l : List Char) : Option (Nat × Nat × List Char) :=
  let d1 := l.takeWhile Char.isDigit
  if d1.isEmpty then none else
  let r2 := (l.dropWhile Char.isDigit).dropWhile Char.isWhitespace
  match matchSep r2 with
  | none => none
  | some r3 =>
    let r4 := r3.dropWhile Char.isWhitespace
    let d2 := r4.takeWhile Char.isDigit
    if d2.isEmpty then none else
    let r6 := (r4.dropWhile Char.isDigit).dropWhile Char.isWhitespace
    match matchYearTok r6 with
    | none => none
    | some r7 => some (natOfDigits d1, natOfDigits d2, r7)

/-- Fuelled scan loop for `findYearRanges`; the fuel (initially the input
length) dominates the number of scan steps, since every step consumes at
least one character. -/
def findYearRangesAux : Nat → List Char → List (Nat × Nat)
  | 0, _ => []
  | fuel + 1, l =>
    match matchYearRangeAt l with
    | some (a, b, rest) => (a, b) :: findYearRangesAux fuel rest
    | none =>
      match l with
      | [] => []
      | _ :: t => findYearRangesAux fuel t

/-- Embeds `re.findall(r'(\d+)\s*(?:to|-|–)\s*(\d+)\s*(?:year|yr)', text)`. -/
def findYearRanges (l : List Char) : List (Nat × Nat) :=
  findYearRangesAux l.length l

/-- Attempt `(\d+)\s*(?:year|yr)` at the head of `l`. -/
def matchSingleYearAt (l : List Char) : Option (Nat × List Char) :=
  let d := l.takeWhile Char.isDigit
  if d.isEmpty then none else
  let r := (l.dropWhile Char.isDigit).dropWhile Char.isWhitespace
  match matchYearTok r with
  | none => none
  | some rest => some (natOfDigits d, rest)

/-- Fuelled scan loop for `findSingleYears`. -/
def findSingleYearsAux : Nat → List Char → List Nat
  | 0, _ => []
  | fuel + 1, l =>
    match matchSingleYearAt l with
    | some (a, rest) => a :: findSingleYearsAux fuel rest
    | none =>
      match l with
      | [] => []
      | _ :: t => findSingleYearsAux fuel t

/-- Embeds `re.findall(r'(\d+)\s*(?:year|yr)', text)`. -/
def findSingleYears (l : List Char) : List Nat :=
  findSingleYearsAux l.length l

/-! ## The scorer (`JobMatcher`, analyzers/job_matcher.py) -/

/-- Embeds `JobMatcher.fresher_keywords`, set in `__init__`. -/
def fresher_keywords : List String :=
  ["fresher", "freshers", "entry level", "entry-level",
   "0 year", "0 years", "0-1", "0 to 1", "0-2", "0 to 2",
   "1 year", "0 month", "graduate", "trainee", "intern",
   "internship", "junior", "associate", "beginner",
   "campus", "no experience", "recent graduate"]

/-- Embeds `JobMatcher.calculate_keyword_match`. -/
def calculate_keyword_match (p : Profile) (job : Job) : ℚ :=
  let job_text :=
    pyLower (job.title ++ " " ++ job.skills_required ++ " " ++ job.job_description)
  let matched_skills := p.skills.filter (fun s => pyIn (pyLower s) job_text)
  let half_matches := p.skills.filter (fun s =>
    !(pyIn (pyLower s) job_text) &&
    (pySplit job_text).any (fun word => pyIn (pyLower s) word))
  let total_skills := p.skills.length
  if total_skills = 0 then 50
  else
    let exact_score : ℚ := ((matched_skills.length : ℚ) / (total_skills : ℚ)) * 100
    let half_score : ℚ := ((half_matches.length : ℚ) / (total_skills : ℚ)) * 50
    let final_score := min (exact_score + half_score) 100
    let key_skills : List String := ["sql", "python", "excel", "power bi", "tableau"]
    let key_matches :=
      (matched_skills.filter (fun s => key_skills.contains (pyLower s))).length
    let final_score := if 2 ≤ key_matches then final_score + 10 else final_score
    min final_score 100

/-- The `all_text` string scanned by the experience cascade:
lowercased experience text, title and description, space-joined. -/
def experience_all_text (job : Job) : String :=
  pyLower job.experience_required ++ " " ++ pyLower job.title ++ " " ++
    pyLower job.job_description

/-- Embeds `JobMatcher.calculate_experience_match`: the four-priority cascade. -/
def calculate_experience_match (p : Profile) (job : Job) : ℚ :=
  let exp_text := pyLower job.experience_required
  let title := pyLower job.title
  let all_text := experience_all_text job
  if fresher_keywords.any (fun kw => pyIn kw all_text) then 100
  else
    match findYearRanges exp_text.data with
    | m :: ms =>
      let max_exp := ms.foldl (fun acc x => max acc x.2) m.2
      if max_exp = 0 then 100
      else if max_exp = 1 then 95
      else if max_exp = 2 then 90
      else if max_exp ≤ p.max_experience_required then 75
      else 40
    | [] =>
      match findSingleYears exp_text.data with
      | years :: _ =>
        if years = 0 then 100
        else if years = 1 then 90
        else if years = 2 then 80
        else if years ≤ 3 then 60
        else 30
      | [] =>
        if exp_text = "" || exp_text = "not specified" then
          if ["junior", "associate", "trainee", "intern"].any
              (fun w => pyIn w title) then 85
          else 70
        else 60

/-- Embeds `JobMatcher.calculate_location_match`. -/
def calculate_location_match (p : Profile) (job : Job) : ℚ :=
  let job_location := pyLower job.location
  if p.preferred_locations.any (fun pref => pyIn (pyLower pref) job_location) then 100
  else if ["remote", "work from home", "wfh", "anywhere", "pan india"].any
      (fun kw => pyIn kw job_location) then 95
  else if pyIn "hybrid" job_location then 85
  else if ["pune", "mumbai", "delhi", "chennai", "kolkata"].any
      (fun city => pyIn city job_location) then 50
  else 30

/-- Embeds `JobMatcher.calculate_company_score`. -/
def calculate_company_score (job : Job) : ℚ :=
  let company_type := pyLower job.company_type
  let company_name := pyLower job.company
  if company_type = "mnc" ||
      ["microsoft", "google", "amazon", "deloitte", "accenture", "tcs",
       "infosys", "wipro", "cognizant"].any (fun m => pyIn m company_name) then 100
  else if company_type = "startup" then 90
  else 70

/-- Embeds `JobMatcher.is_explicitly_fresher_friendly`. -/
def is_explicitly_fresher_friendly (job : Job) : Bool :=
  let all_text :=
    pyLower job.title ++ " " ++ pyLower job.experience_required ++ " " ++
      pyLower (pyTake job.job_description 500)
  ["fresher", "freshers only", "entry level", "graduate trainee",
   "0 year", "0 years", "campus", "internship", "trainee program"].any
    (fun ind => pyIn ind all_text)

/-- Embeds `JobMatcher.calculate_relevance_score`: weighted sum of the five
sub-scores, +15 fresher bonus, capped at 100, rounded to 2 decimals. -/
def calculate_relevance_score (cfg : MatchingConfig) (p : Profile) (job : Job) : ℚ :=
  let keyword_score := calculate_keyword_match p job
  let exp_score := calculate_experience_match p job
  let loc_score := calculate_location_match p job
  let company_score := calculate_company_score job
  let salary_score : ℚ := 50
  let score :=
    keyword_score * cfg.keyword_weight + exp_score * cfg.experience_weight +
      loc_score * cfg.location_weight + company_score * cfg.company_type_weight +
      salary_score * cfg.salary_weight
  let score := if is_explicitly_fresher_friendly job then score + 15 else score
  pyRound2 (min score 100)

/-- Embeds `JobMatcher.is_relevant_job`: the cheap keyword pre-filter. -/
def is_relevant_job (job : Job) : Bool :=
  let all_text :=
    pyLower job.title ++ " " ++ pyLower (pyTake job.job_description 300) ++ " " ++
      pyLower job.skills_required
  if ["data", "analyst", "analytics", "analysis",
      "engineer", "engineering",
      "sql", "python", "excel", "power bi", "tableau",
      "database", "etl", "reporting", "dashboard",
      "bi", "business intelligence", "mis", "report",
      "statistics", "statistical", "visualization",
      "junior", "associate", "trainee", "intern",
      "mysql", "postgresql", "pandas", "numpy"].any
      (fun kw => pyIn kw all_text) then true
  else if is_explicitly_fresher_friendly job then
    ["it", "software", "technology", "computer", "tech"].any
      (fun t => pyIn t all_text)
  else false

/-! ## Normalization (`scrapers/ats_scraper.py`)

`extract_experience` runs `re.search` with the patterns
`(\d+)\s*(?:[-‚Äìto]+)\s*(\d+)\s*years?` (the character class is the exact,
mojibake-containing class of the source) and `(\d+)\+?\s*years?`, and
interpolates the *captured digit strings* into the result.  `re.search`
returns the leftmost match; greedy scanning is again exact because no
adjacent classes of these patterns overlap. -/

/-- The literal characters of the `[-‚Äìto]` class in the source. -/
def rangeSepClass : List Char := ['-', '‚', 'Ä', 'ì', 't', 'o']

/-- Attempt `(\d+)\s*(?:[-‚Äìto]+)\s*(\d+)\s*years?` at the head of `l`,
returning the two captured digit strings. -/
def matchRangeV2At (l : List Char) : Option (List Char × List Char) :=
  let d1 := l.takeWhile Char.isDigit
  if d1.isEmpty then none else
  let r2 := (l.dropWhile Char.isDigit).dropWhile Char.isWhitespace
  let seps := r2.takeWhile (fun c => rangeSepClass.contains c)
  if seps.isEmpty then none else
  let r3 := (r2.dropWhile (fun c => rangeSepClass.contains c)).dropWhile Char.isWhitespace
  let d2 := r3.takeWhile Char.isDigit
  if d2.isEmpty then none else
  let r4 := (r3.dropWhile Char.isDigit).dropWhile Char.isWhitespace
  if ['y', 'e', 'a', 'r'].isPrefixOf r4 then some (d1, d2) else none

/-- Embeds `re.search` for the range pattern: leftmost match wins. -/
def searchRangeV2 : List Char → Option (List Char × List Char)
  | [] => none
  | c :: t =>
    match matchRangeV2At (c :: t) with
    | some r => some r
    | none => searchRangeV2 t

/-- Attempt `(\d+)\+?\s*years?` at the head of `l`,
returning the captured digit string. -/
def matchPlusAt (l : List Char) : Option (List Char) :=
  let d := l.takeWhile Char.isDigit
  if d.isEmpty then none else
  let r1 := l.dropWhile Char.isDigit
  let r2 := match r1 with
    | '+' :: rest => rest
    | _ => r1
  let r3 := r2.dropWhile Char.isWhitespace
  if ['y', 'e', 'a', 'r'].isPrefixOf r3 then some d else none

/-- Embeds `re.search` for the `N+ years` pattern. -/
def searchPlus : List Char → Option (List Char)
  | [] => none
  | c :: t =>
    match matchPlusAt (c :: t) with
    | some r => some r
    | none => searchPlus t

/-- Embeds `ats_scraper.extract_experience`. -/
def extract_experience (title : String) (desc : String) : String :=
  let text := pyLower (title ++ " " ++ desc)
  if ["fresher", "entry level", "graduate", "trainee", "intern",
      "0 year", "0-1", "0 to 1"].any (fun w => pyIn w text) then
    "0-1 years (Fresher)"
  else
    match searchRangeV2 text.data with
    | some (g1, g2) => String.mk g1 ++ "-" ++ String.mk g2 ++ " years"
    | none =>
      match searchPlus text.data with
      | some g1 => String.mk g1 ++ "+ years"
      | none => "Not specified"

/-- Embeds `ats_scraper.normalize_job`.  Fields `location` and `link` may be `None` in
Python, hence the `Option` parameters; `today` stands for
`datetime.now().strftime('%Y-%m-%d')`. -/
def normalize_job (title company : String) (location : Option String)
    (description : String) (link : Option String)
    (source company_type today : String) : Job where
  title := pyTake title 200
  company := company
  company_type := company_type
  location := pyOrStr location "India"
  job_description := pyTake (pyOrStr (some description) title) 600
  skills_required := ""
  experience_required := extract_experience title description
  salary := "Not disclosed"
  application_link := pyOrStr link ""
  source_platform := source
  posting_date := today

/-! ## The aggregator (`main.py`)

`safe_scrape` wraps a single adapter invocation; the result of the wrapped
Python call is modelled as `Except String (List Job)` (`.error` = the call
raised).  STEP 2 of `main` is the dedup / pre-filter / score loop over the
harvested list with its `seen_keys` set. -/

/-- Embeds `main.safe_scrape`: a raising adapter contributes `[]`. -/
def safe_scrape (result : Except String (List Job)) : List Job :=
  match result with
  | .ok jobs => jobs
  | .error _ => []

/-- The `all_jobs.extend(safe_scrape(...))` accumulation over one harvest
pass: every adapter invocation is wrapped by `safe_scrape` and appended. -/
def collect_scrapes (results : List (Except String (List Job))) : List Job :=
  results.foldl (fun acc r => acc ++ safe_scrape r) []

/-- The dedup key of STEP 2:
`f"{job.get('title','').lower()[:50]}|{job.get('company','').lower()}"`. -/
def dedupKey (job : Job) : String :=
  pyTake (pyLower job.title) 50 ++ "|" ++ pyLower job.company

/-- The deduplication carried out by the STEP 2 loop, started on a set
`seen` of already-seen keys: a job whose key is in the set is skipped, a
fresh key is added to the set unconditionally (before any later filter). -/
def step2_dedup : List Job → List String → List Job
  | [], _ => []
  | job :: rest, seen =>
    if seen.contains (dedupKey job) then step2_dedup rest seen
    else job :: step2_dedup rest (seen ++ [dedupKey job])

/-- The final contents of `seen_keys` after the STEP 2 loop. -/
def step2_keys : List Job → List String → List String
  | [], seen => seen
  | job :: rest, seen =>
    if seen.contains (dedupKey job) then step2_keys rest seen
    else step2_keys rest (seen ++ [dedupKey job])

/-- The whole STEP 2 loop: dedup, `is_relevant_job` pre-filter, scoring
(`job['relevance_score'] = score`), and the `min_relevance_score` threshold.
Returns `relevant_jobs` together with the final `seen_keys`. -/
def step2 (cfg : MatchingConfig) (p : Profile) :
    List Job → List String → List Job × List String
  | [], seen => ([], seen)
  | job :: rest, seen =>
    if seen.contains (dedupKey job) then step2 cfg p rest seen
    else
      let seen' := seen ++ [dedupKey job]
      if !is_relevant_job job then step2 cfg p rest seen'
      else
        let score := calculate_relevance_score cfg p job
        let res := step2 cfg p rest seen'
        if cfg.min_relevance_score ≤ score then
          ({ job with relevance_score := score } :: res.1, res.2)
        else res

/-! ## The persistence gateway (`database/db_manager.py`)

The `jobs` table is a list of rows plus the next `AUTOINCREMENT` id; the
`UNIQUE(title, company, location)` constraint makes an `INSERT` of a row
whose key tuple is already present raise `sqlite3.IntegrityError`, which
`insert_job` catches and converts to `None`.  A missing required dict key
raises `KeyError`, which `insert_job` does *not* catch (`.error` below);
the table is then unchanged.  `today` stands for
`datetime.now().strftime('%Y-%m-%d')`. -/

structure JobRow where
  title : String
  company : String
  company_type : String
  location : String
  experience_required : String
  skills_required : String
  tools_tech_stack : String
  salary : String
  job_description : String
  application_link : String
  source_platform : String
  posting_date : String
  freshness_score : Int
  relevance_score : ℚ
  deriving DecidableEq, Repr

/-- The `job_data` dict passed to `insert_job`: every key optional. -/
structure JobData where
  title : Option String := none
  company : Option String := none
  company_type : Option String := none
  location : Option String := none
  experience_required : Option String := none
  skills_required : Option String := none
  tools_tech_stack : Option String := none
  salary : Option String := none
  job_description : Option String := none
  application_link : Option String := none
  source_platform : Option String := none
  posting_date : Option String := none
  freshness_score : Option Int := none
  relevance_score : Option ℚ := none
  deriving DecidableEq, Repr

structure JobsTable where
  rows : List JobRow
  nextId : Nat
  deriving DecidableEq, Repr

/-- Python `job_data['k']`: value or `KeyError` `k`. -/
def getRequired (o : Option α) (key : String) : Except String α :=
  match o with
  | some v => .ok v
  | none => .error key

/-- Two rows collide on the `UNIQUE(title, company, location)` constraint. -/
def sameKeyRow (t c l : String) (r : JobRow) : Bool :=
  r.title == t && r.company == c && r.location == l

/-- The body of `DatabaseManager.insert_job`, reading the dict keys in the
source's tuple order. -/
def insertRowCore (tbl : JobsTable) (today : String) (jd : JobData) :
    Except String (Option Nat × JobsTable) := do
  let title ← getRequired jd.title "title"
  let company ← getRequired jd.company "company"
  let company_type := jd.company_type.getD "Unknown"
  let location ← getRequired jd.location "location"
  let experience_required := jd.experience_required.getD "Not specified"
  let skills_required := jd.skills_required.getD ""
  let tools_tech_stack := jd.tools_tech_stack.getD ""
  let salary := jd.salary.getD "Not disclosed"
  let job_description ← getRequired jd.job_description "job_description"
  let application_link ← getRequired jd.application_link "application_link"
  let source_platform ← getRequired jd.source_platform "source_platform"
  let posting_date := jd.posting_date.getD today
  let freshness_score := jd.freshness_score.getD 100
  let relevance_score := jd.relevance_score.getD 0
  if tbl.rows.any (sameKeyRow title company location) then
    pure (none, tbl)
  else
    pure (some tbl.nextId,
      ⟨tbl.rows ++ [⟨title, company, company_type, location, experience_required,
                     skills_required, tools_tech_stack, salary, job_description,
                     application_link, source_platform, posting_date,
                     freshness_score, relevance_score⟩],
       tbl.nextId + 1⟩)

/-- Embeds `DatabaseManager.insert_job`: `.ok (some id)` = inserted,
`.ok none` = duplicate skipped, `.error k` = `KeyError` `k` propagates;
the returned table is the table after the call. -/
def insert_job (tbl : JobsTable) (today : String) (jd : JobData) :
    Except String (Option Nat) × JobsTable :=
  match insertRowCore tbl today jd with
  | .ok (r, t) => (.ok r, t)
  | .error k => (.error k, tbl)

/-! ## Concrete instances used by the claim theorems and witnesses -/

/-- A job with nonempty fields everywhere, used to witness the score bound. -/
def c1job : Job :=
  { title := "Software Engineer", company := "Globex", location := "Pune",
    experience_required := "5-8 years", skills_required := "Java, Kotlin",
    job_description := "Build backend services" }

/-- The fresher-precedence job of the spec: a fresher keyword and a numeric
range in the same experience text. -/
def c2job : Job :=
  { title := "Data Analyst", experience_required := "Fresher (0-2 years)" }

/-- A fully-populated `job_data` dict for the idempotent-insert claim. -/
def c3data : JobData :=
  { title := some "Data Analyst", company := some "Acme",
    location := some "Hyderabad", job_description := some "Analyze data",
    application_link := some "https://acme.example/jobs/1",
    source_platform := some "Greenhouse" }

/-- An empty-title posting (only company and description set). -/
def c6job1 : Job := { company := "Acme", job_description := "data analyst opening" }

/-- A second empty-title posting with the same company, hence the same
dedup key as `c6job1`. -/
def c6job2 : Job := { company := "Acme", job_description := "another posting" }

/-- The scenario profile of the spec: `YOUR_PROFILE` with skills
`["SQL", "Python"]`. -/
def c7profile : Profile := { YOUR_PROFILE with skills := ["SQL", "Python"] }

/-- The scenario job of the spec. -/
def c7job : Job :=
  { title := "Junior Data Analyst", skills_required := "Advanced SQL, Python3",
    experience_required := "0-1 years" }

/-- A posting returned by a succeeding adapter. -/
def c8jobA : Job := { title := "Data Analyst", company := "Acme" }

/-- A posting returned by a second succeeding adapter. -/
def c8jobB : Job := { title := "SQL Developer", company := "Beta" }

/-- The "Senior Associate" job: its experience text "9-11 years" contains
the fresher keyword "1 year" as a substring. -/
def c9job : Job := { title := "Senior Associate", experience_required := "9-11 years" }

/-- A job whose only fresher signal is the word "junior" in the title. -/
def c9wjob : Job := { title := "Junior Developer" }

/-- A `job_data` dict missing the required key "title". -/
def c10missing : JobData :=
  { company := some "Acme", location := some "Hyderabad" }

/-- A `job_data` dict carrying exactly the six required keys. -/
def c10minimal : JobData :=
  { title := some "Data Analyst", company := some "Acme",
    location := some "Hyderabad", job_description := some "desc",
    application_link := some "https://acme.example/jobs/2",
    source_platform := some "Naukri" }

/-! ## Helper lemmas -/

lemma experience_match_bounds (p : Profile) (job : Job) :
    30 ≤ calculate_experience_match p job ∧ calculate_experience_match p job ≤ 100 := by
  simp only [calculate_experience_match]
  repeat' split <;> norm_num

lemma location_match_bounds (p : Profile) (job : Job) :
    30 ≤ calculate_location_match p job ∧ calculate_location_match p job ≤ 100 := by
  simp only [calculate_location_match]
  repeat' split <;> norm_num

lemma company_score_bounds (job : Job) :
    70 ≤ calculate_company_score job ∧ calculate_company_score job ≤ 100 := by
  simp only [calculate_company_score]
  repeat' split <;> norm_num

lemma keyword_match_bounds (p : Profile) (job : Job) :
    0 ≤ calculate_keyword_match p job ∧ calculate_keyword_match p job ≤ 100 := by
  simp only [calculate_keyword_match]
  split
  · norm_num
  · refine ⟨le_min ?_ (by norm_num), min_le_right _ _⟩
    split <;> positivity

lemma roundHalfEven_nonneg {x : ℚ} (hx : 0 ≤ x) : 0 ≤ roundHalfEven x := by
  have hf : (0:ℤ) ≤ ⌊x⌋ := Int.floor_nonneg.mpr hx
  simp only [roundHalfEven]
  split
  · exact hf
  · split
    · omega
    · split <;> omega

lemma roundHalfEven_le {x : ℚ} {n : ℤ} (hx : x ≤ (n:ℚ)) : roundHalfEven x ≤ n := by
  have hf : ⌊x⌋ ≤ n := (Int.floor_le_floor hx).trans_eq (Int.floor_intCast n)
  have hlt : (1:ℚ)/2 ≤ x - (⌊x⌋:ℚ) → ⌊x⌋ + 1 ≤ n := by
    intro h
    have hfl : (⌊x⌋:ℚ) < (n:ℚ) := by linarith
    have : ⌊x⌋ < n := by exact_mod_cast hfl
    omega
  simp only [roundHalfEven]
  split
  · exact hf
  · rename_i h1
    have hge : (1:ℚ)/2 ≤ x - (⌊x⌋:ℚ) := le_of_not_lt h1
    split
    · exact hlt hge
    · split
      · exact hf
      · exact hlt hge

lemma pyRound2_bounds {x : ℚ} (h0 : 0 ≤ x) (h1 : x ≤ 100) :
    0 ≤ pyRound2 x ∧ pyRound2 x ≤ 100 := by
  have hn : (0:ℤ) ≤ roundHalfEven (x * 100) := roundHalfEven_nonneg (by positivity)
  have hle : roundHalfEven (x * 100) ≤ (10000:ℤ) := roundHalfEven_le (by push_cast; linarith)
  unfold pyRound2
  constructor
  · have : (0:ℚ) ≤ (roundHalfEven (x * 100) : ℚ) := by exact_mod_cast hn
    positivity
  · rw [div_le_iff₀ (by norm_num : (0:ℚ) < 100)]
    have : ((roundHalfEven (x * 100) : ℚ)) ≤ ((10000:ℤ):ℚ) := by exact_mod_cast hle
    push_cast at this ⊢
    linarith

lemma experience_match_of_fresher_kw (p : Profile) (job : Job)
    (h : ∃ kw ∈ fresher_keywords, pyIn kw (experience_all_text job) = true) :
    calculate_experience_match p job = 100 := by
  have hany : fresher_keywords.any (fun kw => pyIn kw (experience_all_text job)) = true :=
    List.any_eq_true.mpr h
  simp only [calculate_experience_match, hany, if_true]

lemma step2_dedup_filter (k : String) (jobs : List Job) : ∀ seen : List String,
    (step2_dedup jobs seen).filter (fun j => dedupKey j == k) =
      if k ∈ seen then [] else (jobs.filter (fun j => dedupKey j == k)).take 1 := by
  induction jobs with
  | nil => intro seen; simp [step2_dedup]
  | cons job rest ih =>
    intro seen
    simp only [step2_dedup]
    by_cases hc : dedupKey job ∈ seen
    · rw [if_pos (by simpa using hc), ih, List.filter_cons]
      by_cases hk : dedupKey job = k
      · subst hk; simp [hc]
      · simp [hk, hc]
    · rw [if_neg (by simpa using hc), List.filter_cons]
      by_cases hk : dedupKey job = k
      · subst hk
        simp only [beq_self_eq_true, if_pos]
        rw [ih]
        have : dedupKey job ∈ seen ++ [dedupKey job] := by simp
        simp [this, hc]
      · have hbk : (dedupKey job == k) = false := by simp [hk]
        simp only [hbk, Bool.false_eq_true, if_false]
        rw [ih]
        have h1 : (k ∈ seen ++ [dedupKey job]) ↔ k ∈ seen := by
          simp only [List.mem_append, List.mem_singleton, or_iff_left_iff_imp]
          exact fun h => absurd h.symm hk
        simp [h1, List.filter_cons, hbk]

lemma step2_keys_mono (jobs : List Job) : ∀ (seen : List String) (k : String),
    k ∈ seen → k ∈ step2_keys jobs seen := by
  induction jobs with
  | nil => intro seen k hk; simpa [step2_keys] using hk
  | cons job rest ih =>
    intro seen k hk
    simp only [step2_keys]
    split
    · exact ih seen k hk
    · exact ih _ k (by simp [hk])

lemma step2_keys_complete (jobs : List Job) : ∀ (seen : List String) (j : Job),
    j ∈ jobs → dedupKey j ∈ step2_keys jobs seen := by
  induction jobs with
  | nil => intro seen j hj; simp at hj
  | cons job rest ih =>
    intro seen j hj
    simp only [step2_keys]
    rcases List.mem_cons.mp hj with hj | hj
    · subst hj
      split
      · rename_i hcon
        exact step2_keys_mono rest seen _ (by simpa using hcon)
      · exact step2_keys_mono rest _ _ (by simp)
    · split
      · exact ih seen j hj
      · exact ih _ j hj

lemma collect_scrapes_acc (rs : List (Except String (List Job))) :
    ∀ acc : List Job,
      rs.foldl (fun a r => a ++ safe_scrape r) acc = acc ++ collect_scrapes rs := by
  induction rs with
  | nil => intro acc; simp [collect_scrapes]
  | cons r rest ih =>
    intro acc
    simp only [collect_scrapes, List.foldl_cons, List.nil_append]
    rw [ih, ih (safe_scrape r), List.append_assoc]

lemma mem_collect_scrapes {rs : List (Except String (List Job))} {js : List Job}
    {job : Job} (hr : Except.ok js ∈ rs) (hj : job ∈ js) :
    job ∈ collect_scrapes rs := by
  induction rs with
  | nil => simp at hr
  | cons r rest ih =>
    simp only [collect_scrapes, List.foldl_cons, List.nil_append]
    rw [collect_scrapes_acc]
    rcases List.mem_cons.mp hr with hr | hr
    · subst hr
      exact List.mem_append_left _ (by simpa [safe_scrape] using hj)
    · exact List.mem_append_right _ (ih hr)

lemma filter_eq_nil_of_any_false {p : JobRow → Bool} {rows : List JobRow}
    (h : rows.any p = false) : rows.filter p = [] := by
  refine List.filter_eq_nil_iff.mpr ?_
  intro r hr hp
  have : rows.any p = true := List.any_eq_true.mpr ⟨r, hr, hp⟩
  rw [h] at this
  exact absurd this (by simp)

/-! Coherence of the STEP 2 projections: the full loop `step2` ends with
exactly the key set `step2_keys`, and its output is the dedup-survivor list
`step2_dedup` filtered by the relevance pre-filter and score threshold. -/

lemma step2_snd_eq_keys (cfg : MatchingConfig) (p : Profile) (jobs : List Job) :
    ∀ seen : List String, (step2 cfg p jobs seen).2 = step2_keys jobs seen := by
  induction jobs with
  | nil => intro seen; simp [step2, step2_keys]
  | cons job rest ih =>
    intro seen
    simp only [step2, step2_keys]
    split
    · exact ih seen
    · split
      · exact ih _
      · split <;> simp [ih]

lemma step2_fst_eq_dedup_filter (cfg : MatchingConfig) (p : Profile) (jobs : List Job) :
    ∀ seen : List String,
      (step2 cfg p jobs seen).1 =
        ((step2_dedup jobs seen).filter (fun j =>
            is_relevant_job j &&
            decide (cfg.min_relevance_score ≤ calculate_relevance_score cfg p j))).map
          (fun j => { j with relevance_score := calculate_relevance_score cfg p j }) := by
  induction jobs with
  | nil => intro seen; simp [step2, step2_dedup]
  | cons job rest ih =>
    intro seen
    simp only [step2, step2_dedup]
    split
    · exact ih seen
    · rw [List.filter_cons]
      by_cases hrel : is_relevant_job job
      · by_cases hsc : cfg.min_relevance_score ≤ calculate_relevance_score cfg p job
        · have hd : decide (cfg.min_relevance_score ≤
              calculate_relevance_score cfg p job) = true := decide_eq_true hsc
          simp [hrel, hd, ih, hsc]
        · have hd : decide (cfg.min_relevance_score ≤
              calculate_relevance_score cfg p job) = false := decide_eq_false hsc
          simp [hrel, hd, ih, hsc]
      · simp only [hrel, Bool.false_and, Bool.false_eq_true, if_false, Bool.not_false, if_true]
        exact ih _

/-! ## Claim theorems -/

/-- C1: for every job record and every choice of non-negative weights, the
total returned by `calculate_relevance_score` lies in the closed
interval [0, 100]. -/
theorem C1_relevance_score_bounded (cfg : MatchingConfig) (p : Profile) (job : Job)
    (hk : 0 ≤ cfg.keyword_weight) (he : 0 ≤ cfg.experience_weight)
    (hl : 0 ≤ cfg.location_weight) (hc : 0 ≤ cfg.company_type_weight)
    (hs : 0 ≤ cfg.salary_weight) :
    0 ≤ calculate_relevance_score cfg p job ∧
      calculate_relevance_score cfg p job ≤ 100 := by
  obtain ⟨hk0, hk1⟩ := keyword_match_bounds p job
  obtain ⟨he0, he1⟩ := experience_match_bounds p job
  obtain ⟨hl0, hl1⟩ := location_match_bounds p job
  obtain ⟨hc0, hc1⟩ := company_score_bounds job
  have m1 : (0:ℚ) ≤ calculate_keyword_match p job * cfg.keyword_weight := mul_nonneg hk0 hk
  have m2 : (0:ℚ) ≤ calculate_experience_match p job * cfg.experience_weight :=
    mul_nonneg (by linarith) he
  have m3 : (0:ℚ) ≤ calculate_location_match p job * cfg.location_weight :=
    mul_nonneg (by linarith) hl
  have m4 : (0:ℚ) ≤ calculate_company_score job * cfg.company_type_weight :=
    mul_nonneg (by linarith) hc
  have m5 : (0:ℚ) ≤ (50:ℚ) * cfg.salary_weight := mul_nonneg (by norm_num) hs
  simp only [calculate_relevance_score]
  split
  · exact pyRound2_bounds (le_min (by linarith) (by norm_num)) (min_le_right _ _)
  · exact pyRound2_bounds (le_min (by linarith) (by norm_num)) (min_le_right _ _)

/-- C1 witness: the bound at the configured weights, `YOUR_PROFILE`, and a
concrete job. -/
theorem C1_witness :
    (0 ≤ MATCHING_CONFIG.keyword_weight ∧ 0 ≤ MATCHING_CONFIG.experience_weight ∧
     0 ≤ MATCHING_CONFIG.location_weight ∧ 0 ≤ MATCHING_CONFIG.company_type_weight ∧
     0 ≤ MATCHING_CONFIG.salary_weight) ∧
    (0 ≤ calculate_relevance_score MATCHING_CONFIG YOUR_PROFILE c1job ∧
      calculate_relevance_score MATCHING_CONFIG YOUR_PROFILE c1job ≤ 100) :=
  ⟨⟨by norm_num [MATCHING_CONFIG], by norm_num [MATCHING_CONFIG],
    by norm_num [MATCHING_CONFIG], by norm_num [MATCHING_CONFIG],
    by norm_num [MATCHING_CONFIG]⟩,
   C1_relevance_score_bounded MATCHING_CONFIG YOUR_PROFILE c1job
     (by norm_num [MATCHING_CONFIG]) (by norm_num [MATCHING_CONFIG])
     (by norm_num [MATCHING_CONFIG]) (by norm_num [MATCHING_CONFIG])
     (by norm_num [MATCHING_CONFIG])⟩

/-- C2: whenever any fresher keyword occurs as a substring of the combined
lowercased experience/title/description text, `calculate_experience_match`
returns 100 — the fresher branch takes precedence over numeric parsing. -/
theorem C2_fresher_precedence (p : Profile) (job : Job)
    (h : ∃ kw ∈ fresher_keywords, pyIn kw (experience_all_text job) = true) :
    calculate_experience_match p job = 100 :=
  experience_match_of_fresher_kw p job h

/-- C2 witness: "Fresher (0-2 years)" scores 100 via the keyword branch,
while its text also carries the parseable numeric range (0, 2). -/
theorem C2_witness :
    calculate_experience_match YOUR_PROFILE c2job = 100 ∧
    findYearRanges (pyLower c2job.experience_required).data = [(0, 2)] :=
  ⟨C2_fresher_precedence YOUR_PROFILE c2job ⟨"fresher", by decide, by decide⟩,
   by decide⟩

/-- C3: inserting the same `(title, company, location)` tuple twice stores
exactly one row; the first call returns a fresh id, the second returns the
duplicate signal (`none`) without an error, and the matching row count is 1. -/
theorem C3_insert_idempotent (tbl : JobsTable) (d1 d2 : String) (jd : JobData)
    (t c l : String)
    (ht : jd.title = some t) (hco : jd.company = some c) (hl : jd.location = some l)
    (hd : ∃ d, jd.job_description = some d)
    (ha : ∃ a, jd.application_link = some a)
    (hs : ∃ s, jd.source_platform = some s)
    (hfresh : tbl.rows.any (sameKeyRow t c l) = false) :
    ∃ tbl' : JobsTable,
      insert_job tbl d1 jd = (.ok (some tbl.nextId), tbl') ∧
      insert_job tbl' d2 jd = (.ok none, tbl') ∧
      (tbl'.rows.filter (sameKeyRow t c l)).length = 1 := by
  obtain ⟨d, hd⟩ := hd
  obtain ⟨a, ha⟩ := ha
  obtain ⟨s, hs⟩ := hs
  have hrow : sameKeyRow t c l
      ⟨t, c, jd.company_type.getD "Unknown", l, jd.experience_required.getD "Not specified",
       jd.skills_required.getD "", jd.tools_tech_stack.getD "", jd.salary.getD "Not disclosed",
       d, a, s, jd.posting_date.getD d1, jd.freshness_score.getD 100,
       jd.relevance_score.getD 0⟩ = true := by
    simp [sameKeyRow]
  refine ⟨⟨tbl.rows ++
      [⟨t, c, jd.company_type.getD "Unknown", l, jd.experience_required.getD "Not specified",
        jd.skills_required.getD "", jd.tools_tech_stack.getD "", jd.salary.getD "Not disclosed",
        d, a, s, jd.posting_date.getD d1, jd.freshness_score.getD 100,
        jd.relevance_score.getD 0⟩], tbl.nextId + 1⟩, ?_, ?_, ?_⟩
  · simp [insert_job, insertRowCore, ht, hco, hl, hd, ha, hs, getRequired,
      Bind.bind, Except.bind, pure, Except.pure, hfresh]
  · simp [insert_job, insertRowCore, ht, hco, hl, hd, ha, hs, getRequired,
      Bind.bind, Except.bind, pure, Except.pure, List.any_append, hfresh, hrow]
  · simp [List.filter_append, filter_eq_nil_of_any_false hfresh, hrow]

/-- C3 witness: the double insert on an empty table with a concrete dict. -/
theorem C3_witness :
    ∃ tbl' : JobsTable,
      insert_job ⟨[], 1⟩ "2026-02-03" c3data = (.ok (some 1), tbl') ∧
      insert_job tbl' "2026-02-04" c3data = (.ok none, tbl') ∧
      (tbl'.rows.filter (sameKeyRow "Data Analyst" "Acme" "Hyderabad")).length = 1 :=
  C3_insert_idempotent ⟨[], 1⟩ "2026-02-03" "2026-02-04" c3data
    "Data Analyst" "Acme" "Hyderabad" rfl rfl rfl
    ⟨"Analyze data", rfl⟩ ⟨"https://acme.example/jobs/1", rfl⟩ ⟨"Greenhouse", rfl⟩ rfl

/-- C4: the STEP 2 dedup keeps, for every dedup key, exactly the first
posting with that key in list order and drops the rest — stated as a filter
equation over arbitrary input lists, so the presence and position of
unrelated postings cannot affect the outcome. -/
theorem C4_dedup_keeps_first (jobs : List Job) (k : String) :
    (step2_dedup jobs []).filter (fun j => dedupKey j == k) =
      (jobs.filter (fun j => dedupKey j == k)).take 1 := by
  simpa using step2_dedup_filter k jobs []

/-- C5 counterexample: a posting with no location is normalized to the fixed
string "India" — not the configured home region "Hyderabad" — and then
scores 30, the same value as a clearly foreign location, i.e. the bottom
location sub-score. -/
theorem C5_counterexample :
    (normalize_job "Data Analyst" "Acme" none "" none "Greenhouse" "IT"
        "2026-02-03").location = "India" ∧
    YOUR_PROFILE.location = "Hyderabad" ∧
    calculate_location_match YOUR_PROFILE
      (normalize_job "Data Analyst" "Acme" none "" none "Greenhouse" "IT"
        "2026-02-03") = 30 ∧
    calculate_location_match YOUR_PROFILE { location := "New York" } = 30 := by
  refine ⟨by decide, rfl, ?_, ?_⟩ <;>
    simp +decide [calculate_location_match, YOUR_PROFILE, normalize_job]

/-- C5 amended: an empty or absent location is replaced by the hardcoded
fallback "India" during normalization, and such a posting still receives
location sub-score 30 — the same catch-all value as any unrecognized
location (the scorer's minimum, by `location_match_bounds`). -/
theorem C5_location_fallback_amended
    (title company description source company_type today : String)
    (link loc : Option String) (hloc : loc = none ∨ loc = some "") :
    (normalize_job title company loc description link source company_type
        today).location = "India" ∧
    calculate_location_match YOUR_PROFILE
      (normalize_job title company loc description link source company_type
        today) = 30 := by
  have hind : (normalize_job title company loc description link source
      company_type today).location = "India" := by
    rcases hloc with h | h <;> subst h <;> simp [normalize_job, pyOrStr]
  refine ⟨hind, ?_⟩
  simp only [calculate_location_match, hind]
  decide

/-- C5 witness for the amended claim, at concrete inputs. -/
theorem C5_witness :
    (normalize_job "Data Engineer" "Beta" (some "") "etl pipelines"
        (some "https://beta.example") "Lever" "Startup" "2026-02-03").location
      = "India" ∧
    calculate_location_match YOUR_PROFILE
      (normalize_job "Data Engineer" "Beta" (some "") "etl pipelines"
        (some "https://beta.example") "Lever" "Startup" "2026-02-03") = 30 :=
  C5_location_fallback_amended "Data Engineer" "Beta" "etl pipelines" "Lever"
    "Startup" "2026-02-03" (some "https://beta.example") (some "") (Or.inr rfl)

/-- C6 counterexample: a posting with an empty title is not dropped before
dedup — it survives the dedup step, its key (with an empty title component)
enters `seen_keys`, and it even suppresses a later posting that collides on
the empty-component key. -/
theorem C6_counterexample :
    c6job1.title = "" ∧
    step2_dedup [c6job1, c6job2] [] = [c6job1] ∧
    dedupKey c6job1 = "|acme" ∧
    step2_keys [c6job1, c6job2] [] = ["|acme"] := by
  refine ⟨rfl, by decide, by decide, by decide⟩

/-- C6 amended: the aggregator performs no emptiness filtering before dedup:
the dedup key of every harvested posting — including postings with empty
title or company — enters the dedup key set. -/
theorem C6_dedup_keys_amended (jobs : List Job) (j : Job) (hj : j ∈ jobs) :
    dedupKey j ∈ step2_keys jobs [] :=
  step2_keys_complete jobs [] j hj

/-- C6 witness: the empty-title posting's key is in the final key set. -/
theorem C6_witness : dedupKey c6job1 ∈ step2_keys [c6job1, c6job2] [] :=
  C6_dedup_keys_amended [c6job1, c6job2] c6job1 (List.mem_cons_self _ _)

/-- C7: in the spec's scenario (profile skills ["SQL", "Python"], job
"Junior Data Analyst" / "Advanced SQL, Python3" / "0-1 years"), the keyword
sub-score is at least 75, the experience sub-score is exactly 100, and the
total score reaches the high-priority threshold of the configured weights. -/
theorem C7_scenario :
    75 ≤ calculate_keyword_match c7profile c7job ∧
    calculate_experience_match c7profile c7job = 100 ∧
    MATCHING_CONFIG.high_priority_score ≤
      calculate_relevance_score MATCHING_CONFIG c7profile c7job := by
  have h1 : calculate_keyword_match c7profile c7job = 100 := by
    simp +decide [calculate_keyword_match, c7profile, c7job, YOUR_PROFILE]
  have h2 : calculate_experience_match c7profile c7job = 100 := by
    simp +decide [calculate_experience_match, c7profile, c7job]
  have h3 : calculate_relevance_score MATCHING_CONFIG c7profile c7job = 78 := by
    simp +decide [calculate_relevance_score, calculate_keyword_match,
      calculate_experience_match, calculate_location_match, calculate_company_score,
      c7profile, c7job, YOUR_PROFILE, MATCHING_CONFIG, pyRound2, roundHalfEven]
    norm_num
  exact ⟨by rw [h1]; norm_num, h2, by rw [h3]; norm_num [MATCHING_CONFIG]⟩

/-- C8: a failing adapter invocation contributes the empty list through
`safe_scrape`, and every posting of every succeeding invocation still
appears in the collected harvest output. -/
theorem C8_adapter_isolation (results : List (Except String (List Job)))
    (e : String) (js : List Job) (job : Job) :
    safe_scrape (.error e) = [] ∧
    (Except.ok js ∈ results → job ∈ js → job ∈ collect_scrapes results) :=
  ⟨rfl, fun hr hj => mem_collect_scrapes hr hj⟩

/-- C8 witness: with one adapter of three raising, the other adapters'
postings are still collected. -/
theorem C8_witness :
    safe_scrape (.error "timeout") = [] ∧
    c8jobB ∈ collect_scrapes [.ok [c8jobA], .error "timeout", .ok [c8jobB]] :=
  ⟨(C8_adapter_isolation [] "timeout" [] c8jobB).1,
   (C8_adapter_isolation [.ok [c8jobA], .error "timeout", .ok [c8jobB]]
      "timeout" [c8jobB] c8jobB).2
     (List.mem_cons_of_mem _ (List.mem_cons_of_mem _ (List.mem_cons_self _ _)))
     (List.mem_cons_self _ _)⟩

/-- C9: the implemented fresher list contains "junior", "associate",
"intern" and "1 year"; any job whose combined lowercased text contains any
listed substring scores 100; in particular "Senior Associate" with
"9-11 years" (which contains "1 year" inside "11 years") scores 100, not
the numeric-range value 40. -/
theorem C9_fresher_substring :
    ("junior" ∈ fresher_keywords ∧ "associate" ∈ fresher_keywords ∧
     "intern" ∈ fresher_keywords ∧ "1 year" ∈ fresher_keywords) ∧
    (∀ (p : Profile) (job : Job),
      (∃ kw ∈ fresher_keywords, pyIn kw (experience_all_text job) = true) →
      calculate_experience_match p job = 100) ∧
    (pyIn "1 year" (pyLower c9job.experience_required) = true ∧
     calculate_experience_match YOUR_PROFILE c9job = 100) := by
  refine ⟨by decide, fun p job h => experience_match_of_fresher_kw p job h, by decide, ?_⟩
  simp +decide [calculate_experience_match, c9job]

/-- C9 witness: the universal part applied at a concrete job whose title
contains "junior". -/
theorem C9_witness : calculate_experience_match YOUR_PROFILE c9wjob = 100 :=
  C9_fresher_substring.2.1 YOUR_PROFILE c9wjob ⟨"junior", by decide, by decide⟩

/-- C10: a `job_data` dict missing any of the six required keys makes
`insert_job` propagate a missing-key error with the table unchanged, while
missing optional keys are replaced by their defaults ("Unknown",
"Not specified", "", "", "Not disclosed", today's date, 100, 0) without
error. -/
theorem C10_insert_required_defaults (tbl : JobsTable) (today : String) (jd : JobData) :
    ((jd.title = none ∨ jd.company = none ∨ jd.location = none ∨
        jd.job_description = none ∨ jd.application_link = none ∨
        jd.source_platform = none) →
      ∃ k, insert_job tbl today jd = (.error k, tbl)) ∧
    (∀ t c l d a s, jd.title = some t → jd.company = some c → jd.location = some l →
      jd.job_description = some d → jd.application_link = some a →
      jd.source_platform = some s →
      jd.company_type = none → jd.experience_required = none →
      jd.skills_required = none → jd.tools_tech_stack = none → jd.salary = none →
      jd.posting_date = none → jd.freshness_score = none → jd.relevance_score = none →
      tbl.rows.any (sameKeyRow t c l) = false →
      insert_job tbl today jd =
        (.ok (some tbl.nextId),
         ⟨tbl.rows ++ [⟨t, c, "Unknown", l, "Not specified", "", "", "Not disclosed",
                        d, a, s, today, 100, 0⟩], tbl.nextId + 1⟩)) := by
  constructor
  · intro h
    cases ht : jd.title with
    | none =>
      exact ⟨"title", by
        simp [insert_job, insertRowCore, getRequired, ht, Bind.bind, Except.bind]⟩
    | some t =>
    cases hco : jd.company with
    | none =>
      exact ⟨"company", by
        simp [insert_job, insertRowCore, getRequired, ht, hco, Bind.bind, Except.bind]⟩
    | some c =>
    cases hl : jd.location with
    | none =>
      exact ⟨"location", by
        simp [insert_job, insertRowCore, getRequired, ht, hco, hl, Bind.bind, Except.bind]⟩
    | some l =>
    cases hd : jd.job_description with
    | none =>
      exact ⟨"job_description", by
        simp [insert_job, insertRowCore, getRequired, ht, hco, hl, hd, Bind.bind, Except.bind]⟩
    | some d =>
    cases ha : jd.application_link with
    | none =>
      exact ⟨"application_link", by
        simp [insert_job, insertRowCore, getRequired, ht, hco, hl, hd, ha,
          Bind.bind, Except.bind]⟩
    | some a =>
    cases hs : jd.source_platform with
    | none =>
      exact ⟨"source_platform", by
        simp [insert_job, insertRowCore, getRequired, ht, hco, hl, hd, ha, hs,
          Bind.bind, Except.bind]⟩
    | some s =>
      rcases h with h | h | h | h | h | h <;> simp_all
  · intro t c l d a s ht hco hl hd ha hs h1 h2 h3 h4 h5 h6 h7 h8 hfresh
    simp [insert_job, insertRowCore, getRequired, ht, hco, hl, hd, ha, hs,
      h1, h2, h3, h4, h5, h6, h7, h8, Bind.bind, Except.bind, pure, Except.pure, hfresh]

/-- C10 witness: a dict missing "title" errors and leaves the empty table
unchanged; a dict with only the required keys inserts the defaults row. -/
theorem C10_witness :
    (∃ k, insert_job ⟨[], 1⟩ "2026-02-03" c10missing = (.error k, ⟨[], 1⟩)) ∧
    insert_job ⟨[], 1⟩ "2026-02-03" c10minimal =
      (.ok (some 1),
       ⟨[⟨"Data Analyst", "Acme", "Unknown", "Hyderabad", "Not specified", "", "",
          "Not disclosed", "desc", "https://acme.example/jobs/2", "Naukri",
          "2026-02-03", 100, 0⟩], 2⟩) :=
  ⟨(C10_insert_required_defaults ⟨[], 1⟩ "2026-02-03" c10missing).1 (Or.inl rfl),
   (C10_insert_required_defaults ⟨[], 1⟩ "2026-02-03" c10minimal).2
     "Data Analyst" "Acme" "Hyderabad" "desc" "https://acme.example/jobs/2" "Naukri"
     rfl rfl rfl rfl rfl rfl rfl rfl rfl rfl rfl rfl rfl rfl rfl⟩

end JobIntel
